import Mathlib

/-!
Verification of the connection-options module of the rumqtt MQTT client
(src/options.rs): the `ReconnectOptions` policy type, the `TlsOptions`
wrapper and the `MqttOptions` aggregate with its consuming builder API.

The Rust code is shallowly embedded: records for structs, an inductive for
the enum, `Option` results for functions whose source can panic (`none`
models the panic/abort path).  Machine integers are modelled as `Nat`;
`usize` arithmetic wraps modulo `2 ^ 64` (the crate targets 64-bit
platforms and release-mode wrapping is the defined overflow behaviour),
written out explicitly where the source multiplies.
-/

/-- Rust std `Duration` as used by this module.  Only whole-second values
are ever built (via `Duration::from_secs`), so seconds and nanoseconds as
natural numbers model every value that occurs. -/
structure Duration where
  secs : Nat
  nanos : Nat
  deriving DecidableEq

/-- Embeds `Duration::from_secs`. -/
def Duration.from_secs (s : Nat) : Duration :=
  { secs := s, nanos := 0 }

/-- Embeds `enum ReconnectOptions { Never, AfterFirstSuccess(Duration), Always(Duration) }`. -/
inductive ReconnectOptions where
  | Never : ReconnectOptions
  | AfterFirstSuccess : Duration → ReconnectOptions
  | Always : Duration → ReconnectOptions
  deriving DecidableEq

/-- Stand-in for the external `RustlsConfig` backend TLS configuration
(type of the external rustls crate; its internals never matter to this
module, which only stores it). -/
structure RustlsConfig where
  data : Nat
  deriving DecidableEq

/-- Model of `std::sync::Arc`.  An `Arc` value is a handle: `addr` is the
address of the heap allocation it points at and `val` the contents stored
there.  `Arc::new` allocates (the model threads the fresh address in
explicitly); `Clone` on `Arc` copies only the handle, so a clone points at
the very same allocation. -/
structure Arc (α : Type) where
  addr : Nat
  val : α
  deriving DecidableEq

/-- Embeds `Arc::new`: places the value at a fresh address. -/
def Arc.new {α : Type} (v : α) (fresh : Nat) : Arc α :=
  { addr := fresh, val := v }

/-- Embeds `Clone` for `Arc`: bumps the reference count and returns a
handle to the same allocation — address and contents are unchanged. -/
def Arc.clone {α : Type} (x : Arc α) : Arc α :=
  x

/-- Embeds `struct TlsOptions { hostname: String, config: Arc<RustlsConfig> }`. -/
structure TlsOptions where
  hostname : String
  config : Arc RustlsConfig
  deriving DecidableEq

/-- Embeds `TlsOptions::new(hostname, config)`:
`TlsOptions { hostname, config: Arc::new(config) }`. -/
def TlsOptions.new (hostname : String) (config : RustlsConfig) (fresh : Nat) : TlsOptions :=
  { hostname := hostname, config := Arc.new config fresh }

/-- Embeds the derived `Clone` for `TlsOptions`: field-wise clone, so the
string contents are copied and the `Arc` handle is shared. -/
def TlsOptions.clone (t : TlsOptions) : TlsOptions :=
  { hostname := t.hostname, config := Arc.clone t.config }

/-- Iterates `TlsOptions.clone`: `clones n t` is the result of `n`
successive clone calls starting from `t`.  Together with field reads,
`new` and `clone` are the only public operations of the type. -/
def clones : Nat → TlsOptions → TlsOptions
  | 0, t => t
  | n + 1, t => clones n (TlsOptions.clone t)

/-- Stand-in for the external `mqtt3::LastWill` (opaque to this module,
which only stores it; fields follow the mqtt3 codec crate). -/
structure LastWill where
  topic : String
  message : String
  qos : Nat
  retain : Bool
  deriving DecidableEq

/-- Modulus of `usize` arithmetic on the 64-bit targets the crate supports. -/
def usizeSize : Nat := 2 ^ 64

/-- Embeds `struct MqttOptions` with its nine public fields. -/
structure MqttOptions where
  broker_addr : String
  keep_alive : Option Nat
  clean_session : Bool
  client_id : String
  mqtt_connection_timeout : Duration
  reconnect : ReconnectOptions
  max_packet_size : Nat
  last_will : Option LastWill
  tls : Option TlsOptions
  deriving DecidableEq

/-- Embeds `MqttOptions::new(id, addr)`.  The `Into<String>` generics are
instantiated at `String`, where `into` is the identity. -/
def MqttOptions.new (id addr : String) : MqttOptions :=
  { broker_addr := addr
    keep_alive := some 10
    clean_session := true
    client_id := id
    mqtt_connection_timeout := Duration.from_secs 5
    reconnect := ReconnectOptions.AfterFirstSuccess (Duration.from_secs 10)
    max_packet_size := 100 * 1024
    last_will := none
    tls := none }

/-- Embeds `MqttOptions::set_keep_alive(self, secs: u16)`.  The source
panics when `secs < 5`; the panic path is modelled as `none`.  A `u16`
argument is a natural number below `2 ^ 16`. -/
def MqttOptions.set_keep_alive (self : MqttOptions) (secs : Nat) : Option MqttOptions :=
  if secs < 5 then
    none
  else
    some { self with keep_alive := some secs }

/-- Embeds `MqttOptions::set_max_packet_size(self, sz: usize)`:
`self.max_packet_size = sz * 1024`.  The `usize` multiplication wraps
modulo `2 ^ 64`. -/
def MqttOptions.set_max_packet_size (self : MqttOptions) (sz : Nat) : MqttOptions :=
  { self with max_packet_size := sz * 1024 % usizeSize }

/-- Embeds `MqttOptions::set_clean_session`. -/
def MqttOptions.set_clean_session (self : MqttOptions) (clean_session : Bool) : MqttOptions :=
  { self with clean_session := clean_session }

/-- Embeds `MqttOptions::set_reconnect_opts`. -/
def MqttOptions.set_reconnect_opts (self : MqttOptions) (opts : ReconnectOptions) : MqttOptions :=
  { self with reconnect := opts }

/-- Embeds `MqttOptions::set_tls_opts`. -/
def MqttOptions.set_tls_opts (self : MqttOptions) (opts : Option TlsOptions) : MqttOptions :=
  { self with tls := opts }

/-- Embeds `MqttOptions::set_last_will`. -/
def MqttOptions.set_last_will (self : MqttOptions) (will : Option LastWill) : MqttOptions :=
  { self with last_will := will }

/-- One public setter call of `MqttOptions`, with its argument. -/
inductive Setter where
  | keepAlive : Nat → Setter
  | maxPacketSize : Nat → Setter
  | cleanSession : Bool → Setter
  | reconnectOpts : ReconnectOptions → Setter
  | tlsOpts : Option TlsOptions → Setter
  | lastWill : Option LastWill → Setter

/-- Applies one setter call; `none` is the panic/abort path. -/
def applySetter (o : MqttOptions) : Setter → Option MqttOptions
  | Setter.keepAlive s => o.set_keep_alive s
  | Setter.maxPacketSize sz => some (o.set_max_packet_size sz)
  | Setter.cleanSession b => some (o.set_clean_session b)
  | Setter.reconnectOpts rc => some (o.set_reconnect_opts rc)
  | Setter.tlsOpts t => some (o.set_tls_opts t)
  | Setter.lastWill w => some (o.set_last_will w)

/-- Applies a finite sequence of setter calls left to right; the result is
`some o` exactly when every call returns normally. -/
def applySetters : MqttOptions → List Setter → Option MqttOptions
  | o, [] => some o
  | o, s :: rest =>
    match applySetter o s with
    | none => none
    | some o2 => applySetters o2 rest

/-- Decidable form of the keep-alive invariant: if `keep_alive` is set,
the stored value is at least 5 seconds. -/
def keepAliveOk (o : MqttOptions) : Bool :=
  match o.keep_alive with
  | none => true
  | some k => decide (5 ≤ k)

/-- C1: for every pair of strings, `MqttOptions.new id addr` returns a
value with `broker_addr = addr`, `client_id = id`, `keep_alive = some 10`,
`clean_session = true`, a 5-second connection timeout,
`reconnect = AfterFirstSuccess(10 s)`, `max_packet_size = 102400`,
`last_will = none` and `tls = none`. -/
theorem new_defaults (id addr : String) :
    (MqttOptions.new id addr).broker_addr = addr ∧
    (MqttOptions.new id addr).client_id = id ∧
    (MqttOptions.new id addr).keep_alive = some 10 ∧
    (MqttOptions.new id addr).clean_session = true ∧
    (MqttOptions.new id addr).mqtt_connection_timeout = Duration.from_secs 5 ∧
    (MqttOptions.new id addr).reconnect
      = ReconnectOptions.AfterFirstSuccess (Duration.from_secs 10) ∧
    (MqttOptions.new id addr).max_packet_size = 102400 ∧
    (MqttOptions.new id addr).last_will = none ∧
    (MqttOptions.new id addr).tls = none :=
  ⟨rfl, rfl, rfl, rfl, rfl, rfl, rfl, rfl, rfl⟩

/-- C2: for every `u16` value `s`, `set_keep_alive` panics (modelled as
returning `none`) iff `s < 5`; for `s ≥ 5` it returns normally and the
result stores `keep_alive = some s`. -/
theorem set_keep_alive_panics_iff (o : MqttOptions) (s : Nat) (hs : s < 2 ^ 16) :
    (o.set_keep_alive s = none ↔ s < 5) ∧
    (5 ≤ s → ∃ r, o.set_keep_alive s = some r ∧ r.keep_alive = some s) := by
  refine ⟨?_, ?_⟩
  · unfold MqttOptions.set_keep_alive
    by_cases h : s < 5 <;> simp [h]
  · intro h5
    refine ⟨{ o with keep_alive := some s }, ?_, rfl⟩
    unfold MqttOptions.set_keep_alive
    have h : ¬ s < 5 := by omega
    simp [h]

/-- Witness for C2 at `s = 7`. -/
theorem set_keep_alive_panics_iff_witness :
    ((MqttOptions.new "w1" "w2").set_keep_alive 7 = none ↔ 7 < 5) ∧
    (5 ≤ 7 → ∃ r, (MqttOptions.new "w1" "w2").set_keep_alive 7 = some r ∧
      r.keep_alive = some 7) :=
  set_keep_alive_panics_iff (MqttOptions.new "w1" "w2") 7 (by decide)

/-- C3 counterexample: at `sz = 2 ^ 54` (a valid 64-bit `usize`) the
`usize` product `sz * 1024` equals `2 ^ 64` and wraps to `0`, so the
stored `max_packet_size` is not `sz * 1024`. -/
theorem set_max_packet_size_overflow :
    ((MqttOptions.new "c3" "c3a").set_max_packet_size (2 ^ 54)).max_packet_size
      ≠ 2 ^ 54 * 1024 := by
  decide

/-- C3 amended: `set_max_packet_size sz` always stores
`sz * 1024 % 2 ^ 64` and performs no bound check; whenever the product
fits in a `usize` (in particular for every `sz < 2 ^ 54`) the stored value
is exactly `sz * 1024`. -/
theorem set_max_packet_size_stores (o : MqttOptions) (sz : Nat) :
    (o.set_max_packet_size sz).max_packet_size = sz * 1024 % usizeSize ∧
    (sz * 1024 < usizeSize → (o.set_max_packet_size sz).max_packet_size = sz * 1024) := by
  refine ⟨rfl, fun h => ?_⟩
  show sz * 1024 % usizeSize = sz * 1024
  exact Nat.mod_eq_of_lt h

/-- Witness for C3 (amended) at `sz = 50`. -/
theorem set_max_packet_size_stores_witness :
    ((MqttOptions.new "c3w" "c3wa").set_max_packet_size 50).max_packet_size = 50 * 1024 :=
  (set_max_packet_size_stores (MqttOptions.new "c3w" "c3wa") 50).2 (by decide)

/-- C4: `set_clean_session`, `set_max_packet_size` and
`set_reconnect_opts` commute pairwise on every options value (each touches
a disjoint field), and in particular all six orders of applying
`set_clean_session false`, `set_max_packet_size 50` and
`set_reconnect_opts Never` to a fresh `MqttOptions.new id addr` yield the
same value. -/
theorem setters_commute (id addr : String) (o : MqttOptions) (b : Bool) (sz : Nat)
    (rc : ReconnectOptions) :
    (o.set_clean_session b).set_max_packet_size sz
      = (o.set_max_packet_size sz).set_clean_session b ∧
    (o.set_clean_session b).set_reconnect_opts rc
      = (o.set_reconnect_opts rc).set_clean_session b ∧
    (o.set_max_packet_size sz).set_reconnect_opts rc
      = (o.set_reconnect_opts rc).set_max_packet_size sz ∧
    (((MqttOptions.new id addr).set_clean_session false).set_max_packet_size 50).set_reconnect_opts
        ReconnectOptions.Never
      = (((MqttOptions.new id addr).set_clean_session false).set_reconnect_opts
          ReconnectOptions.Never).set_max_packet_size 50 ∧
    (((MqttOptions.new id addr).set_clean_session false).set_max_packet_size 50).set_reconnect_opts
        ReconnectOptions.Never
      = (((MqttOptions.new id addr).set_max_packet_size 50).set_clean_session
          false).set_reconnect_opts ReconnectOptions.Never ∧
    (((MqttOptions.new id addr).set_clean_session false).set_max_packet_size 50).set_reconnect_opts
        ReconnectOptions.Never
      = (((MqttOptions.new id addr).set_max_packet_size 50).set_reconnect_opts
          ReconnectOptions.Never).set_clean_session false ∧
    (((MqttOptions.new id addr).set_clean_session false).set_max_packet_size 50).set_reconnect_opts
        ReconnectOptions.Never
      = (((MqttOptions.new id addr).set_reconnect_opts
          ReconnectOptions.Never).set_clean_session false).set_max_packet_size 50 ∧
    (((MqttOptions.new id addr).set_clean_session false).set_max_packet_size 50).set_reconnect_opts
        ReconnectOptions.Never
      = (((MqttOptions.new id addr).set_reconnect_opts
          ReconnectOptions.Never).set_max_packet_size 50).set_clean_session false :=
  ⟨rfl, rfl, rfl, rfl, rfl, rfl, rfl, rfl⟩

/-- One setter call that returns normally preserves the keep-alive
invariant: `set_keep_alive` stores only values it has checked to be at
least 5, and no other setter touches `keep_alive`. -/
theorem keepAliveOk_applySetter {o o2 : MqttOptions} {s : Setter}
    (ho : keepAliveOk o = true) (h : applySetter o s = some o2) : keepAliveOk o2 = true := by
  cases s with
  | keepAlive k =>
    simp only [applySetter, MqttOptions.set_keep_alive] at h
    by_cases hk : k < 5
    · simp [hk] at h
    · simp [hk] at h
      subst h
      simp [keepAliveOk]
      omega
  | maxPacketSize sz =>
    simp only [applySetter, Option.some.injEq] at h
    subst h
    exact ho
  | cleanSession b =>
    simp only [applySetter, Option.some.injEq] at h
    subst h
    exact ho
  | reconnectOpts rc =>
    simp only [applySetter, Option.some.injEq] at h
    subst h
    exact ho
  | tlsOpts t =>
    simp only [applySetter, Option.some.injEq] at h
    subst h
    exact ho
  | lastWill w =>
    simp only [applySetter, Option.some.injEq] at h
    subst h
    exact ho

/-- A sequence of setter calls that returns normally preserves the
keep-alive invariant. -/
theorem keepAliveOk_applySetters {o o2 : MqttOptions} {l : List Setter}
    (ho : keepAliveOk o = true) (h : applySetters o l = some o2) : keepAliveOk o2 = true := by
  induction l generalizing o with
  | nil =>
    simp only [applySetters, Option.some.injEq] at h
    subst h
    exact ho
  | cons s rest ih =>
    simp only [applySetters] at h
    cases hs : applySetter o s with
    | none => rw [hs] at h; exact absurd h (by simp)
    | some mid =>
      rw [hs] at h
      exact ih (keepAliveOk_applySetter ho hs) h

/-- C5: every reachable `MqttOptions` value — produced by
`MqttOptions.new` followed by any finite sequence of setter calls that
return normally — satisfies the invariant that a stored `keep_alive` of
`some k` has `k ≥ 5`. -/
theorem reachable_keep_alive_atLeast5 (id addr : String) (l : List Setter) (o : MqttOptions)
    (h : applySetters (MqttOptions.new id addr) l = some o) (k : Nat)
    (hk : o.keep_alive = some k) : 5 ≤ k := by
  have hok : keepAliveOk o = true := keepAliveOk_applySetters (by rfl) h
  unfold keepAliveOk at hok
  rw [hk] at hok
  simpa using hok

/-- Witness for C5: the value reached by one `set_keep_alive 8` call
stores a keep-alive of at least 5. -/
theorem reachable_keep_alive_atLeast5_witness : 5 ≤ 8 :=
  reachable_keep_alive_atLeast5 "c5w" "c5wa" [Setter.keepAlive 8] _ rfl 8 rfl

/-- C6: every setter other than `set_keep_alive` returns normally on
every input — `applySetter` yields `some` of the field update, never the
panic path, for `set_max_packet_size`, `set_clean_session`,
`set_reconnect_opts`, `set_tls_opts` and `set_last_will`. -/
theorem other_setters_total (o : MqttOptions) (sz : Nat) (b : Bool) (rc : ReconnectOptions)
    (t : Option TlsOptions) (w : Option LastWill) :
    applySetter o (Setter.maxPacketSize sz) = some (o.set_max_packet_size sz) ∧
    applySetter o (Setter.cleanSession b) = some (o.set_clean_session b) ∧
    applySetter o (Setter.reconnectOpts rc) = some (o.set_reconnect_opts rc) ∧
    applySetter o (Setter.tlsOpts t) = some (o.set_tls_opts t) ∧
    applySetter o (Setter.lastWill w) = some (o.set_last_will w) :=
  ⟨rfl, rfl, rfl, rfl, rfl⟩

/-- C7: each setter changes at most its own field.  When
`set_keep_alive` returns normally, the result agrees with the receiver on
every field except `keep_alive`; the other five setters leave every field
except their own unchanged. -/
theorem setter_frame (o r : MqttOptions) (s sz : Nat) (b : Bool) (rc : ReconnectOptions)
    (t : Option TlsOptions) (w : Option LastWill) (h : o.set_keep_alive s = some r) :
    (r.broker_addr = o.broker_addr ∧ r.clean_session = o.clean_session ∧
      r.client_id = o.client_id ∧ r.mqtt_connection_timeout = o.mqtt_connection_timeout ∧
      r.reconnect = o.reconnect ∧ r.max_packet_size = o.max_packet_size ∧
      r.last_will = o.last_will ∧ r.tls = o.tls) ∧
    ((o.set_max_packet_size sz).broker_addr = o.broker_addr ∧
      (o.set_max_packet_size sz).keep_alive = o.keep_alive ∧
      (o.set_max_packet_size sz).clean_session = o.clean_session ∧
      (o.set_max_packet_size sz).client_id = o.client_id ∧
      (o.set_max_packet_size sz).mqtt_connection_timeout = o.mqtt_connection_timeout ∧
      (o.set_max_packet_size sz).reconnect = o.reconnect ∧
      (o.set_max_packet_size sz).last_will = o.last_will ∧
      (o.set_max_packet_size sz).tls = o.tls) ∧
    ((o.set_clean_session b).broker_addr = o.broker_addr ∧
      (o.set_clean_session b).keep_alive = o.keep_alive ∧
      (o.set_clean_session b).client_id = o.client_id ∧
      (o.set_clean_session b).mqtt_connection_timeout = o.mqtt_connection_timeout ∧
      (o.set_clean_session b).reconnect = o.reconnect ∧
      (o.set_clean_session b).max_packet_size = o.max_packet_size ∧
      (o.set_clean_session b).last_will = o.last_will ∧
      (o.set_clean_session b).tls = o.tls) ∧
    ((o.set_reconnect_opts rc).broker_addr = o.broker_addr ∧
      (o.set_reconnect_opts rc).keep_alive = o.keep_alive ∧
      (o.set_reconnect_opts rc).clean_session = o.clean_session ∧
      (o.set_reconnect_opts rc).client_id = o.client_id ∧
      (o.set_reconnect_opts rc).mqtt_connection_timeout = o.mqtt_connection_timeout ∧
      (o.set_reconnect_opts rc).max_packet_size = o.max_packet_size ∧
      (o.set_reconnect_opts rc).last_will = o.last_will ∧
      (o.set_reconnect_opts rc).tls = o.tls) ∧
    ((o.set_tls_opts t).broker_addr = o.broker_addr ∧
      (o.set_tls_opts t).keep_alive = o.keep_alive ∧
      (o.set_tls_opts t).clean_session = o.clean_session ∧
      (o.set_tls_opts t).client_id = o.client_id ∧
      (o.set_tls_opts t).mqtt_connection_timeout = o.mqtt_connection_timeout ∧
      (o.set_tls_opts t).max_packet_size = o.max_packet_size ∧
      (o.set_tls_opts t).reconnect = o.reconnect ∧
      (o.set_tls_opts t).last_will = o.last_will) ∧
    ((o.set_last_will w).broker_addr = o.broker_addr ∧
      (o.set_last_will w).keep_alive = o.keep_alive ∧
      (o.set_last_will w).clean_session = o.clean_session ∧
      (o.set_last_will w).client_id = o.client_id ∧
      (o.set_last_will w).mqtt_connection_timeout = o.mqtt_connection_timeout ∧
      (o.set_last_will w).max_packet_size = o.max_packet_size ∧
      (o.set_last_will w).reconnect = o.reconnect ∧
      (o.set_last_will w).tls = o.tls) := by
  refine ⟨?_, ⟨rfl, rfl, rfl, rfl, rfl, rfl, rfl, rfl⟩, ⟨rfl, rfl, rfl, rfl, rfl, rfl, rfl, rfl⟩,
    ⟨rfl, rfl, rfl, rfl, rfl, rfl, rfl, rfl⟩, ⟨rfl, rfl, rfl, rfl, rfl, rfl, rfl, rfl⟩,
    ⟨rfl, rfl, rfl, rfl, rfl, rfl, rfl, rfl⟩⟩
  unfold MqttOptions.set_keep_alive at h
  by_cases hs : s < 5
  · simp [hs] at h
  · simp [hs] at h
    subst h
    exact ⟨rfl, rfl, rfl, rfl, rfl, rfl, rfl, rfl⟩

/-- Witness for C7: a normal `set_keep_alive 6` call leaves
`broker_addr` unchanged. -/
theorem setter_frame_witness :
    ({ MqttOptions.new "c7w" "c7wa" with keep_alive := some 6 } : MqttOptions).broker_addr
      = (MqttOptions.new "c7w" "c7wa").broker_addr :=
  (setter_frame (MqttOptions.new "c7w" "c7wa")
    { MqttOptions.new "c7w" "c7wa" with keep_alive := some 6 } 6 1 false
    ReconnectOptions.Never none none rfl).1.1

/-- C8: the worked example — `MqttOptions.new "client-1"
"broker.example:1883"` followed by `set_keep_alive 15` and
`set_max_packet_size 256` yields `keep_alive = some 15`,
`max_packet_size = 262144`, and every other field at its constructed
default.  The `Option.map` threads the setter chain past the modelled
panic path, which `set_keep_alive 15` does not take. -/
theorem example_chain :
    Option.map (fun o => o.set_max_packet_size 256)
        ((MqttOptions.new "client-1" "broker.example:1883").set_keep_alive 15)
      = some
        { broker_addr := "broker.example:1883"
          keep_alive := some 15
          clean_session := true
          client_id := "client-1"
          mqtt_connection_timeout := Duration.from_secs 5
          reconnect := ReconnectOptions.AfterFirstSuccess (Duration.from_secs 10)
          max_packet_size := 262144
          last_will := none
          tls := none } := by
  decide

/-- Clone is the identity on `TlsOptions` values: the hostname contents
are equal and the `Arc` handle points at the same allocation. -/
theorem clones_eq (n : Nat) (t : TlsOptions) : clones n t = t := by
  induction n generalizing t with
  | zero => rfl
  | succ m ih => exact ih (TlsOptions.clone t)

/-- C9: after `TlsOptions.new hostname c fresh`, any number of clone
calls — the only public operation besides construction and field reads —
yields the very same value: the hostname is unchanged and the clone's
`Arc` handle has the same address (the allocation is shared, not copied)
and the same backend-configuration contents. -/
theorem tls_clone_shares (hn : String) (c : RustlsConfig) (fresh n : Nat) :
    clones n (TlsOptions.new hn c fresh) = TlsOptions.new hn c fresh ∧
    (clones n (TlsOptions.new hn c fresh)).hostname = hn ∧
    (clones n (TlsOptions.new hn c fresh)).config.addr = fresh ∧
    (clones n (TlsOptions.new hn c fresh)).config.val = c := by
  have e := clones_eq n (TlsOptions.new hn c fresh)
  refine ⟨e, ?_, ?_, ?_⟩ <;> rw [e] <;> rfl

/-- One setter call that returns normally keeps `keep_alive` set:
`set_keep_alive` always stores `some secs` and no other setter touches
the field. -/
theorem keep_alive_isSome_applySetter {o o2 : MqttOptions} {s : Setter}
    (ho : o.keep_alive.isSome = true) (h : applySetter o s = some o2) :
    o2.keep_alive.isSome = true := by
  cases s with
  | keepAlive k =>
    simp only [applySetter, MqttOptions.set_keep_alive] at h
    by_cases hk : k < 5
    · simp [hk] at h
    · simp [hk] at h
      subst h
      rfl
  | maxPacketSize sz =>
    simp only [applySetter, Option.some.injEq] at h
    subst h
    exact ho
  | cleanSession b =>
    simp only [applySetter, Option.some.injEq] at h
    subst h
    exact ho
  | reconnectOpts rc =>
    simp only [applySetter, Option.some.injEq] at h
    subst h
    exact ho
  | tlsOpts t =>
    simp only [applySetter, Option.some.injEq] at h
    subst h
    exact ho
  | lastWill w =>
    simp only [applySetter, Option.some.injEq] at h
    subst h
    exact ho

/-- A sequence of setter calls that returns normally keeps `keep_alive`
set. -/
theorem keep_alive_isSome_applySetters {o o2 : MqttOptions} {l : List Setter}
    (ho : o.keep_alive.isSome = true) (h : applySetters o l = some o2) :
    o2.keep_alive.isSome = true := by
  induction l generalizing o with
  | nil =>
    simp only [applySetters, Option.some.injEq] at h
    subst h
    exact ho
  | cons s rest ih =>
    simp only [applySetters] at h
    cases hs : applySetter o s with
    | none => rw [hs] at h; exact absurd h (by simp)
    | some mid =>
      rw [hs] at h
      exact ih (keep_alive_isSome_applySetter ho hs) h

/-- C10: no reachable `MqttOptions` value has `keep_alive = none`:
`MqttOptions.new` stores `some 10` and `set_keep_alive`, the only setter
touching the field, always stores `some secs`. -/
theorem reachable_keep_alive_ne_none (id addr : String) (l : List Setter) (o : MqttOptions)
    (h : applySetters (MqttOptions.new id addr) l = some o) : o.keep_alive ≠ none :=
  Option.ne_none_iff_isSome.mpr (keep_alive_isSome_applySetters (by rfl) h)

/-- Witness for C10: the value reached by one `set_clean_session false`
call still has a keep-alive set. -/
theorem reachable_keep_alive_ne_none_witness :
    ((MqttOptions.new "c10w" "c10wa").set_clean_session false).keep_alive ≠ none :=
  reachable_keep_alive_ne_none "c10w" "c10wa" [Setter.cleanSession false] _ rfl
